import Mathlib

/-!
# Verification of the runaway-node-api record normalizer and route handlers

Shallow embedding of the meaningful logic of the repository:

* `transformData` (the activity Normalizer of the batch import script),
* `importActivities` (the batch importer loop of the same script),
* the Express route handlers of `index.js` (second, current revision of the
  file): `POST /tokens`, `GET /tokens/:user_id`, `GET /activities/:id`,
  `GET /sessions/:sessionId`, `POST /athletes/:id`, `POST /athletes/:id/stats`,
  `POST /maps`.

JavaScript runtime values that the code manipulates are modelled by `JSValue`
(with `undef` standing for both the `undefined` value and an absent object
key); a JSON object is modelled as a total lookup function `Rec` from key
strings to `JSValue`, absent keys mapping to `undef`.  The external Supabase
store is opaque: each handler takes the outcome of its single store call as a
parameter.  Per the PostgREST contract that the repository itself relies on
(the `refresh-tokens`, `sessions` and `auth` handlers all test
`error.code === "PGRST116"`), a `.single()` query matching zero rows yields an
error whose `code` is `"PGRST116"`, not a null-data success.
-/

/-- A JavaScript runtime value as used by this codebase: `undef` models both
the `undefined` value and the absence of an object key. -/
inductive JSValue where
  | undef : JSValue
  | null : JSValue
  | bool : Bool → JSValue
  | num : Int → JSValue
  | str : String → JSValue
deriving DecidableEq, Repr

/-- A JSON object, as a total lookup from key to value (absent keys give
`undef`). -/
def Rec : Type := String → JSValue

/-- JavaScript truthiness restricted to the values of `JSValue`:
`undefined`, `null`, `false`, `0` and `""` are falsy, everything else truthy. -/
def jsTruthy : JSValue → Bool
  | .undef => false
  | .null => false
  | .bool b => b
  | .num n => n != 0
  | .str s => s != ""

/-- The JavaScript `a || d` short-circuit: `a` when truthy, else `d`. -/
def jsOr (a d : JSValue) : JSValue :=
  if jsTruthy a then a else d

/-- The JavaScript optional-chained call `v?.toString()`: `undefined` when `v`
is `undefined` or `null`, otherwise the string rendering of `v`. -/
def optToString : JSValue → JSValue
  | .undef => .undef
  | .null => .undef
  | .bool b => .str (if b then "true" else "false")
  | .num n => .str (toString n)
  | .str s => .str s

/-- The `undefined → null` rewrite that `transformData` applies to every field
of its result object. -/
def undefToNull (v : JSValue) : JSValue :=
  if v = .undef then .null else v

/-- The fixed output shape of the Normalizer: the exact 35 keys of the object
literal built by `transformData`. -/
structure ActivityRecord where
  external_id : JSValue
  upload_id : JSValue
  name : JSValue
  detail : JSValue
  distance : JSValue
  moving_time : JSValue
  elapsed_time : JSValue
  high_elevation : JSValue
  low_elevation : JSValue
  total_elevation_gain : JSValue
  start_date : JSValue
  start_date_local : JSValue
  time_zone : JSValue
  achievement_count : JSValue
  kudos_count : JSValue
  comment_count : JSValue
  athlete_count : JSValue
  photo_count : JSValue
  total_photo_count : JSValue
  trainer : JSValue
  commute : JSValue
  manual : JSValue
  «private» : JSValue
  flagged : JSValue
  average_speed : JSValue
  max_speed : JSValue
  calories : JSValue
  has_kudoed : JSValue
  kilo_joules : JSValue
  average_power : JSValue
  max_power : JSValue
  device_watts : JSValue
  has_heart_rate : JSValue
  average_heart_rate : JSValue
  max_heart_rate : JSValue
deriving DecidableEq, Repr

/-- Apply `f` to every field of an `ActivityRecord` (the
`Object.keys(transformedData).forEach` pass of `transformData`). -/
def mapFields (f : JSValue → JSValue) (a : ActivityRecord) : ActivityRecord where
  external_id := f a.external_id
  upload_id := f a.upload_id
  name := f a.name
  detail := f a.detail
  distance := f a.distance
  moving_time := f a.moving_time
  elapsed_time := f a.elapsed_time
  high_elevation := f a.high_elevation
  low_elevation := f a.low_elevation
  total_elevation_gain := f a.total_elevation_gain
  start_date := f a.start_date
  start_date_local := f a.start_date_local
  time_zone := f a.time_zone
  achievement_count := f a.achievement_count
  kudos_count := f a.kudos_count
  comment_count := f a.comment_count
  athlete_count := f a.athlete_count
  photo_count := f a.photo_count
  total_photo_count := f a.total_photo_count
  trainer := f a.trainer
  commute := f a.commute
  manual := f a.manual
  «private» := f a.«private»
  flagged := f a.flagged
  average_speed := f a.average_speed
  max_speed := f a.max_speed
  calories := f a.calories
  has_kudoed := f a.has_kudoed
  kilo_joules := f a.kilo_joules
  average_power := f a.average_power
  max_power := f a.max_power
  device_watts := f a.device_watts
  has_heart_rate := f a.has_heart_rate
  average_heart_rate := f a.average_heart_rate
  max_heart_rate := f a.max_heart_rate

/-- The Normalizer `transformData(record)` of the batch import script: builds
the fixed-shape object (renames, `?.toString()` on the id, `|| 0` / `|| 1` /
`|| false` defaults), then converts every `undefined` field to `null`. -/
def transformData (record : Rec) : ActivityRecord :=
  mapFields undefToNull
    { external_id := optToString (record "id")
      upload_id := record "upload_id"
      name := record "name"
      detail := record "description"
      distance := record "distance"
      moving_time := record "moving_time"
      elapsed_time := record "elapsed_time"
      high_elevation := record "elev_high"
      low_elevation := record "elev_low"
      total_elevation_gain := record "total_elevation_gain"
      start_date := record "start_date"
      start_date_local := record "start_date_local"
      time_zone := record "timezone"
      achievement_count := jsOr (record "achievement_count") (.num 0)
      kudos_count := jsOr (record "kudos_count") (.num 0)
      comment_count := jsOr (record "comment_count") (.num 0)
      athlete_count := jsOr (record "athlete_count") (.num 1)
      photo_count := jsOr (record "photo_count") (.num 0)
      total_photo_count := jsOr (record "total_photo_count") (.num 0)
      trainer := jsOr (record "trainer") (.bool false)
      commute := jsOr (record "commute") (.bool false)
      manual := jsOr (record "manual") (.bool false)
      «private» := jsOr (record "private") (.bool false)
      flagged := jsOr (record "flagged") (.bool false)
      average_speed := record "average_speed"
      max_speed := record "max_speed"
      calories := record "calories"
      has_kudoed := jsOr (record "has_kudoed") (.bool false)
      kilo_joules := record "kilojoules"
      average_power := record "average_watts"
      max_power := record "max_watts"
      device_watts := jsOr (record "device_watts") (.bool false)
      has_heart_rate := jsOr (record "has_heartrate") (.bool false)
      average_heart_rate := record "average_heartrate"
      max_heart_rate := record "max_heartrate" }

/-- No field of the record is the JavaScript `undefined`. -/
def noUndef (a : ActivityRecord) : Prop :=
  a.external_id ≠ .undef ∧ a.upload_id ≠ .undef ∧ a.name ≠ .undef ∧
  a.detail ≠ .undef ∧ a.distance ≠ .undef ∧ a.moving_time ≠ .undef ∧
  a.elapsed_time ≠ .undef ∧ a.high_elevation ≠ .undef ∧
  a.low_elevation ≠ .undef ∧ a.total_elevation_gain ≠ .undef ∧
  a.start_date ≠ .undef ∧ a.start_date_local ≠ .undef ∧
  a.time_zone ≠ .undef ∧ a.achievement_count ≠ .undef ∧
  a.kudos_count ≠ .undef ∧ a.comment_count ≠ .undef ∧
  a.athlete_count ≠ .undef ∧ a.photo_count ≠ .undef ∧
  a.total_photo_count ≠ .undef ∧ a.trainer ≠ .undef ∧
  a.commute ≠ .undef ∧ a.manual ≠ .undef ∧ a.«private» ≠ .undef ∧
  a.flagged ≠ .undef ∧ a.average_speed ≠ .undef ∧ a.max_speed ≠ .undef ∧
  a.calories ≠ .undef ∧ a.has_kudoed ≠ .undef ∧ a.kilo_joules ≠ .undef ∧
  a.average_power ≠ .undef ∧ a.max_power ≠ .undef ∧
  a.device_watts ≠ .undef ∧ a.has_heart_rate ≠ .undef ∧
  a.average_heart_rate ≠ .undef ∧ a.max_heart_rate ≠ .undef

theorem undefToNull_ne_undef (v : JSValue) : undefToNull v ≠ .undef := by
  cases v <;> simp [undefToNull]

/-- The all-fields-absent input record with a numeric `id`, used to witness the
Normalizer claims at a concrete input. -/
def c1Input : Rec := fun k => if k = "id" then .num 42 else (.undef)

/-- C1: `transformData` is total and leaves no field `undefined`; it applies
the fixed renames (`description`→`detail`, `elev_high`→`high_elevation`,
`timezone`→`time_zone`, `kilojoules`→`kilo_joules`,
`average_watts`→`average_power`); it coerces a numeric `id` to a string; every
boolean field defaults to `false` when its source key is absent,
`athlete_count` defaults to `1`, every other counter to `0`, and every
remaining field is the source value with absence mapped to `null`.  (The output
has exactly the fixed `ActivityRecord` field set by construction of the
result object literal.) -/
theorem transformData_total_renames_defaults (r : Rec) :
    noUndef (transformData r) ∧
    (transformData r).detail = undefToNull (r "description") ∧
    (transformData r).high_elevation = undefToNull (r "elev_high") ∧
    (transformData r).time_zone = undefToNull (r "timezone") ∧
    (transformData r).kilo_joules = undefToNull (r "kilojoules") ∧
    (transformData r).average_power = undefToNull (r "average_watts") ∧
    (∀ n : Int, r "id" = .num n →
      (transformData r).external_id = .str (toString n)) ∧
    (r "id" = .undef → (transformData r).external_id = .null) ∧
    (r "trainer" = .undef → (transformData r).trainer = .bool false) ∧
    (r "commute" = .undef → (transformData r).commute = .bool false) ∧
    (r "manual" = .undef → (transformData r).manual = .bool false) ∧
    (r "private" = .undef → (transformData r).«private» = .bool false) ∧
    (r "flagged" = .undef → (transformData r).flagged = .bool false) ∧
    (r "has_kudoed" = .undef → (transformData r).has_kudoed = .bool false) ∧
    (r "device_watts" = .undef →
      (transformData r).device_watts = .bool false) ∧
    (r "has_heartrate" = .undef →
      (transformData r).has_heart_rate = .bool false) ∧
    (r "athlete_count" = .undef →
      (transformData r).athlete_count = .num 1) ∧
    (r "achievement_count" = .undef →
      (transformData r).achievement_count = .num 0) ∧
    (r "kudos_count" = .undef → (transformData r).kudos_count = .num 0) ∧
    (r "comment_count" = .undef → (transformData r).comment_count = .num 0) ∧
    (r "photo_count" = .undef → (transformData r).photo_count = .num 0) ∧
    (r "total_photo_count" = .undef →
      (transformData r).total_photo_count = .num 0) ∧
    (transformData r).upload_id = undefToNull (r "upload_id") ∧
    (transformData r).name = undefToNull (r "name") ∧
    (transformData r).distance = undefToNull (r "distance") ∧
    (transformData r).moving_time = undefToNull (r "moving_time") ∧
    (transformData r).elapsed_time = undefToNull (r "elapsed_time") ∧
    (transformData r).low_elevation = undefToNull (r "elev_low") ∧
    (transformData r).total_elevation_gain =
      undefToNull (r "total_elevation_gain") ∧
    (transformData r).start_date = undefToNull (r "start_date") ∧
    (transformData r).start_date_local =
      undefToNull (r "start_date_local") ∧
    (transformData r).average_speed = undefToNull (r "average_speed") ∧
    (transformData r).max_speed = undefToNull (r "max_speed") ∧
    (transformData r).calories = undefToNull (r "calories") ∧
    (transformData r).max_power = undefToNull (r "max_watts") ∧
    (transformData r).average_heart_rate =
      undefToNull (r "average_heartrate") ∧
    (transformData r).max_heart_rate = undefToNull (r "max_heartrate") := by
  refine ⟨?_, rfl, rfl, rfl, rfl, rfl, ?_, ?_, ?_, ?_, ?_, ?_, ?_, ?_, ?_,
    ?_, ?_, ?_, ?_, ?_, ?_, ?_, rfl, rfl, rfl, rfl, rfl, rfl, rfl, rfl, rfl,
    rfl, rfl, rfl, rfl, rfl, rfl⟩
  · exact ⟨undefToNull_ne_undef _, undefToNull_ne_undef _,
      undefToNull_ne_undef _, undefToNull_ne_undef _, undefToNull_ne_undef _,
      undefToNull_ne_undef _, undefToNull_ne_undef _, undefToNull_ne_undef _,
      undefToNull_ne_undef _, undefToNull_ne_undef _, undefToNull_ne_undef _,
      undefToNull_ne_undef _, undefToNull_ne_undef _, undefToNull_ne_undef _,
      undefToNull_ne_undef _, undefToNull_ne_undef _, undefToNull_ne_undef _,
      undefToNull_ne_undef _, undefToNull_ne_undef _, undefToNull_ne_undef _,
      undefToNull_ne_undef _, undefToNull_ne_undef _, undefToNull_ne_undef _,
      undefToNull_ne_undef _, undefToNull_ne_undef _, undefToNull_ne_undef _,
      undefToNull_ne_undef _, undefToNull_ne_undef _, undefToNull_ne_undef _,
      undefToNull_ne_undef _, undefToNull_ne_undef _, undefToNull_ne_undef _,
      undefToNull_ne_undef _, undefToNull_ne_undef _, undefToNull_ne_undef _⟩
  · intro n h
    show undefToNull (optToString (r "id")) = _
    rw [h]; rfl
  · intro h
    show undefToNull (optToString (r "id")) = _
    rw [h]; rfl
  all_goals
    intro h
    first
      | (show undefToNull (jsOr (r "trainer") (.bool false)) = _; rw [h]; rfl)
      | (show undefToNull (jsOr (r "commute") (.bool false)) = _; rw [h]; rfl)
      | (show undefToNull (jsOr (r "manual") (.bool false)) = _; rw [h]; rfl)
      | (show undefToNull (jsOr (r "private") (.bool false)) = _; rw [h]; rfl)
      | (show undefToNull (jsOr (r "flagged") (.bool false)) = _; rw [h]; rfl)
      | (show undefToNull (jsOr (r "has_kudoed") (.bool false)) = _;
          rw [h]; rfl)
      | (show undefToNull (jsOr (r "device_watts") (.bool false)) = _;
          rw [h]; rfl)
      | (show undefToNull (jsOr (r "has_heartrate") (.bool false)) = _;
          rw [h]; rfl)
      | (show undefToNull (jsOr (r "athlete_count") (.num 1)) = _;
          rw [h]; rfl)
      | (show undefToNull (jsOr (r "achievement_count") (.num 0)) = _;
          rw [h]; rfl)
      | (show undefToNull (jsOr (r "kudos_count") (.num 0)) = _; rw [h]; rfl)
      | (show undefToNull (jsOr (r "comment_count") (.num 0)) = _;
          rw [h]; rfl)
      | (show undefToNull (jsOr (r "photo_count") (.num 0)) = _; rw [h]; rfl)
      | (show undefToNull (jsOr (r "total_photo_count") (.num 0)) = _;
          rw [h]; rfl)

/-- C1 witness: the Normalizer evaluated at the concrete record
`{id: 42}` has no `undefined` field, string id `"42"`, and the documented
defaults. -/
theorem transformData_total_renames_defaults_witness :
    noUndef (transformData c1Input) ∧
    (transformData c1Input).external_id = .str "42" ∧
    (transformData c1Input).trainer = .bool false ∧
    (transformData c1Input).commute = .bool false ∧
    (transformData c1Input).manual = .bool false ∧
    (transformData c1Input).«private» = .bool false ∧
    (transformData c1Input).flagged = .bool false ∧
    (transformData c1Input).has_kudoed = .bool false ∧
    (transformData c1Input).device_watts = .bool false ∧
    (transformData c1Input).has_heart_rate = .bool false ∧
    (transformData c1Input).athlete_count = .num 1 ∧
    (transformData c1Input).achievement_count = .num 0 ∧
    (transformData c1Input).kudos_count = .num 0 ∧
    (transformData c1Input).comment_count = .num 0 ∧
    (transformData c1Input).photo_count = .num 0 ∧
    (transformData c1Input).total_photo_count = .num 0 ∧
    (transformData c1Input).detail = .null := by
  obtain ⟨h0, hd, _, _, _, _, hid, _, htr, hco, hma, hpr, hfl, hku, hdw, hhr,
    hac, hach, hkc, hcc, hpc, htpc, _⟩ :=
    transformData_total_renames_defaults c1Input
  refine ⟨h0, hid 42 (by decide), htr (by decide), hco (by decide),
    hma (by decide), hpr (by decide), hfl (by decide), hku (by decide),
    hdw (by decide), hhr (by decide), hac (by decide), hach (by decide),
    hkc (by decide), hcc (by decide), hpc (by decide), htpc (by decide), ?_⟩
  rw [hd]; decide

/-- The JavaScript object produced by `transformData`, viewed again as a key
lookup: exactly the 35 keys of the output object literal carry values, every
other key (in particular all the renamed source keys such as `description`,
`elev_high`, `timezone`, `kilojoules`, `average_watts`, `has_heartrate`) is
absent. -/
def recOf (a : ActivityRecord) : Rec := fun k =>
  if k = "external_id" then a.external_id
  else if k = "upload_id" then a.upload_id
  else if k = "name" then a.name
  else if k = "detail" then a.detail
  else if k = "distance" then a.distance
  else if k = "moving_time" then a.moving_time
  else if k = "elapsed_time" then a.elapsed_time
  else if k = "high_elevation" then a.high_elevation
  else if k = "low_elevation" then a.low_elevation
  else if k = "total_elevation_gain" then a.total_elevation_gain
  else if k = "start_date" then a.start_date
  else if k = "start_date_local" then a.start_date_local
  else if k = "time_zone" then a.time_zone
  else if k = "achievement_count" then a.achievement_count
  else if k = "kudos_count" then a.kudos_count
  else if k = "comment_count" then a.comment_count
  else if k = "athlete_count" then a.athlete_count
  else if k = "photo_count" then a.photo_count
  else if k = "total_photo_count" then a.total_photo_count
  else if k = "trainer" then a.trainer
  else if k = "commute" then a.commute
  else if k = "manual" then a.manual
  else if k = "private" then a.«private»
  else if k = "flagged" then a.flagged
  else if k = "average_speed" then a.average_speed
  else if k = "max_speed" then a.max_speed
  else if k = "calories" then a.calories
  else if k = "has_kudoed" then a.has_kudoed
  else if k = "kilo_joules" then a.kilo_joules
  else if k = "average_power" then a.average_power
  else if k = "max_power" then a.max_power
  else if k = "device_watts" then a.device_watts
  else if k = "has_heart_rate" then a.has_heart_rate
  else if k = "average_heart_rate" then a.average_heart_rate
  else if k = "max_heart_rate" then a.max_heart_rate
  else .undef

theorem undefToNull_idem (v : JSValue) :
    undefToNull (undefToNull v) = undefToNull v := by
  cases v <;> rfl

theorem jsTruthy_undefToNull (v : JSValue) :
    jsTruthy (undefToNull v) = jsTruthy v := by
  cases v <;> rfl

/-- Renormalizing a defaulted field: applying the `x || d` default followed by
the `undefined → null` pass twice is the same as applying it once, whenever the
default `d` is itself not `undefined`. -/
theorem renorm_default (x d : JSValue) (hd : undefToNull d = d) :
    undefToNull (jsOr (undefToNull (jsOr x d)) d) = undefToNull (jsOr x d) := by
  by_cases h : jsTruthy x = true
  · simp [jsOr, h, jsTruthy_undefToNull, undefToNull_idem]
  · simp [jsOr, h, hd, jsTruthy_undefToNull]

/-- A record whose only present key is `description`; after normalization the
value lives under `detail`, which a second normalization does not read. -/
def c6Input : Rec := fun k => if k = "description" then .str "easy run" else (.undef)

/-- C6 counterexample: the Normalizer is not idempotent.  At the concrete
record `{description: "easy run"}`, normalizing the already-normalized output
again does not yield the same record: the first pass stores the description
under `detail`, and the second pass, reading the absent source key
`description`, resets `detail` to `null`. -/
theorem transformData_not_idempotent :
    transformData (recOf (transformData c6Input)) ≠ transformData c6Input := by
  intro h
  have hd := congrArg ActivityRecord.detail h
  have hne : (transformData (recOf (transformData c6Input))).detail ≠
      (transformData c6Input).detail := by decide
  exact hne hd

/-- C6 amended: renormalizing a normalized record preserves every field that is
copied under the same key (`upload_id`, `name`, the counters, the boolean
flags, …), but resets every renamed field to its default: `external_id`,
`detail`, `high_elevation`, `low_elevation`, `time_zone`, `kilo_joules`,
`average_power`, `max_power`, `average_heart_rate` and `max_heart_rate` become
`null`, and `has_heart_rate` becomes `false`.  So `transformData` is idempotent
exactly on the same-named fields, not on the whole record. -/
theorem transformData_renormalize (r : Rec) :
    (transformData (recOf (transformData r))).upload_id =
      (transformData r).upload_id ∧
    (transformData (recOf (transformData r))).name = (transformData r).name ∧
    (transformData (recOf (transformData r))).distance =
      (transformData r).distance ∧
    (transformData (recOf (transformData r))).moving_time =
      (transformData r).moving_time ∧
    (transformData (recOf (transformData r))).elapsed_time =
      (transformData r).elapsed_time ∧
    (transformData (recOf (transformData r))).total_elevation_gain =
      (transformData r).total_elevation_gain ∧
    (transformData (recOf (transformData r))).start_date =
      (transformData r).start_date ∧
    (transformData (recOf (transformData r))).start_date_local =
      (transformData r).start_date_local ∧
    (transformData (recOf (transformData r))).average_speed =
      (transformData r).average_speed ∧
    (transformData (recOf (transformData r))).max_speed =
      (transformData r).max_speed ∧
    (transformData (recOf (transformData r))).calories =
      (transformData r).calories ∧
    (transformData (recOf (transformData r))).achievement_count =
      (transformData r).achievement_count ∧
    (transformData (recOf (transformData r))).kudos_count =
      (transformData r).kudos_count ∧
    (transformData (recOf (transformData r))).comment_count =
      (transformData r).comment_count ∧
    (transformData (recOf (transformData r))).athlete_count =
      (transformData r).athlete_count ∧
    (transformData (recOf (transformData r))).photo_count =
      (transformData r).photo_count ∧
    (transformData (recOf (transformData r))).total_photo_count =
      (transformData r).total_photo_count ∧
    (transformData (recOf (transformData r))).trainer =
      (transformData r).trainer ∧
    (transformData (recOf (transformData r))).commute =
      (transformData r).commute ∧
    (transformData (recOf (transformData r))).manual =
      (transformData r).manual ∧
    (transformData (recOf (transformData r))).«private» =
      (transformData r).«private» ∧
    (transformData (recOf (transformData r))).flagged =
      (transformData r).flagged ∧
    (transformData (recOf (transformData r))).has_kudoed =
      (transformData r).has_kudoed ∧
    (transformData (recOf (transformData r))).device_watts =
      (transformData r).device_watts ∧
    (transformData (recOf (transformData r))).external_id = .null ∧
    (transformData (recOf (transformData r))).detail = .null ∧
    (transformData (recOf (transformData r))).high_elevation = .null ∧
    (transformData (recOf (transformData r))).low_elevation = .null ∧
    (transformData (recOf (transformData r))).time_zone = .null ∧
    (transformData (recOf (transformData r))).kilo_joules = .null ∧
    (transformData (recOf (transformData r))).average_power = .null ∧
    (transformData (recOf (transformData r))).max_power = .null ∧
    (transformData (recOf (transformData r))).average_heart_rate = .null ∧
    (transformData (recOf (transformData r))).max_heart_rate = .null ∧
    (transformData (recOf (transformData r))).has_heart_rate = .bool false :=
  ⟨undefToNull_idem (r "upload_id"), undefToNull_idem (r "name"),
    undefToNull_idem (r "distance"), undefToNull_idem (r "moving_time"),
    undefToNull_idem (r "elapsed_time"),
    undefToNull_idem (r "total_elevation_gain"),
    undefToNull_idem (r "start_date"), undefToNull_idem (r "start_date_local"),
    undefToNull_idem (r "average_speed"), undefToNull_idem (r "max_speed"),
    undefToNull_idem (r "calories"),
    renorm_default (r "achievement_count") (.num 0) rfl,
    renorm_default (r "kudos_count") (.num 0) rfl,
    renorm_default (r "comment_count") (.num 0) rfl,
    renorm_default (r "athlete_count") (.num 1) rfl,
    renorm_default (r "photo_count") (.num 0) rfl,
    renorm_default (r "total_photo_count") (.num 0) rfl,
    renorm_default (r "trainer") (.bool false) rfl,
    renorm_default (r "commute") (.bool false) rfl,
    renorm_default (r "manual") (.bool false) rfl,
    renorm_default (r "private") (.bool false) rfl,
    renorm_default (r "flagged") (.bool false) rfl,
    renorm_default (r "has_kudoed") (.bool false) rfl,
    renorm_default (r "device_watts") (.bool false) rfl,
    rfl, rfl, rfl, rfl, rfl, rfl, rfl, rfl, rfl, rfl, rfl⟩

/-- The JSON payload of an HTTP response as the handlers build it. -/
inductive RespBody where
  | err : String → RespBody
  | row : Rec → RespBody
  | rowOpt : Option Rec → RespBody
  | rows : List Rec → RespBody
  | nullJson : RespBody

/-- An HTTP response: status code plus JSON body. -/
structure Resp where
  status : Nat
  body : RespBody

/-- Outcome of the `upsert(...).select()` store call in `POST /tokens`:
either `{data, error: null}` (with `data` the selected row array, or the
JavaScript `null`), or `{data: null, error: {code, message}}`. -/
inductive UpsertResult where
  | success : List Rec → UpsertResult
  | successNull : UpsertResult
  | failure : String → String → UpsertResult

/-- The required-field guard of `POST /tokens`:
`!user_id || !refresh_token || !access_token || !expires_at` — any falsy
value (absent, `null`, `0`, `""`, `false`) counts as missing. -/
def tokensMissingRequired (body : Rec) : Bool :=
  !jsTruthy (body "user_id") || !jsTruthy (body "refresh_token") ||
    !jsTruthy (body "access_token") || !jsTruthy (body "expires_at")

/-- The `POST /tokens` handler.  The upsert payload
(`{user_id, refresh_token, access_token, expires_at: new Date(expires_at*1000),
updated_at: now}`) is abstracted into the `UpsertResult` parameter, which is the
outcome of that single store call.  Error code `23505` (unique-constraint
violation) maps to 409; any other store error is thrown and caught as 500 with
its message; a null or empty `data` maps to 500; otherwise 200 with the first
row. -/
def postTokens (body : Rec) (st : UpsertResult) : Resp :=
  if tokensMissingRequired body then
    ⟨400, .err "user_id, refresh_token, access_token, and expires_at are required"⟩
  else
    match st with
    | .failure code msg =>
        if code = "23505" then ⟨409, .err "Token conflict occurred"⟩
        else ⟨500, .err msg⟩
    | .successNull => ⟨500, .err "Failed to upsert token"⟩
    | .success [] => ⟨500, .err "Failed to upsert token"⟩
    | .success (r :: _) => ⟨200, .row r⟩

/-- A valid `POST /tokens` body: all four required fields truthy. -/
def c2Body : Rec := fun k => if k = "expires_at" then .num 1700000000 else .str "x"

/-- A sample stored token row. -/
def c2Row : Rec := fun k => if k = "user_id" then .str "u1" else .str "x"

/-- C2: for a `POST /tokens` request passing the required-field guard, a store
failure with the unique-constraint-violation code `23505` yields 409 Conflict;
a store failure with any other code yields 500 with the store message; and a
successful upsert returning at least one row yields 200 with the upserted
record. -/
theorem postTokens_conflict_vs_error (body : Rec)
    (hv : tokensMissingRequired body = false) :
    (∀ msg, postTokens body (.failure "23505" msg) =
      ⟨409, .err "Token conflict occurred"⟩) ∧
    (∀ code msg, code ≠ "23505" →
      postTokens body (.failure code msg) = ⟨500, .err msg⟩) ∧
    (∀ r rest, postTokens body (.success (r :: rest)) = ⟨200, .row r⟩) := by
  refine ⟨fun msg => ?_, fun code msg hc => ?_, fun r rest => ?_⟩
  · simp [postTokens, hv]
  · simp [postTokens, hv, hc]
  · simp [postTokens, hv]

/-- C2 witness: the theorem evaluated at the concrete valid body `c2Body`, with
a `23505` failure, a generic failure, and a one-row success. -/
theorem postTokens_conflict_vs_error_witness :
    postTokens c2Body (.failure "23505" "dup") =
      ⟨409, .err "Token conflict occurred"⟩ ∧
    postTokens c2Body (.failure "08000" "connection lost") =
      ⟨500, .err "connection lost"⟩ ∧
    postTokens c2Body (.success [c2Row]) = ⟨200, .row c2Row⟩ := by
  obtain ⟨h1, h2, h3⟩ := postTokens_conflict_vs_error c2Body (by decide)
  exact ⟨h1 "dup", h2 "08000" "connection lost" (by decide), h3 c2Row []⟩

/-- C8: a `POST /tokens` body whose `expires_at` is the number `0` fails the
required-field guard even when the other three fields are present and truthy
(`0` is falsy in JavaScript), so the response is 400 with the missing-fields
error for every possible store outcome — in particular the response never
depends on the store, i.e. no store call is observable. -/
theorem postTokens_expires_at_zero_is_400 (body : Rec)
    (h0 : body "expires_at" = .num 0)
    (_h1 : jsTruthy (body "user_id") = true)
    (_h2 : jsTruthy (body "refresh_token") = true)
    (_h3 : jsTruthy (body "access_token") = true) :
    ∀ st, postTokens body st =
      ⟨400, .err "user_id, refresh_token, access_token, and expires_at are required"⟩ := by
  intro st
  have hm : tokensMissingRequired body = true := by
    simp [tokensMissingRequired, h0, jsTruthy]
  simp [postTokens, hm]

/-- The C8 body: all fields present, `expires_at` equal to the number `0`. -/
def c8Body : Rec := fun k => if k = "expires_at" then .num 0 else .str "x"

/-- C8 witness: the concrete body with `expires_at = 0` gets 400 under a store
outcome that would otherwise succeed. -/
theorem postTokens_expires_at_zero_is_400_witness :
    postTokens c8Body (.success [c2Row]) =
      ⟨400, .err "user_id, refresh_token, access_token, and expires_at are required"⟩ :=
  postTokens_expires_at_zero_is_400 c8Body (by decide) (by decide) (by decide)
    (by decide) (.success [c2Row])

/-- Outcome of a `.maybeSingle()` store call: `{data: row | null, error}`. -/
inductive MaybeSingleResult where
  | success : Option Rec → MaybeSingleResult
  | failure : String → String → MaybeSingleResult

/-- The JavaScript test of whether `s.trim()` is the empty string: `trim()`
removes leading and trailing whitespace, so the result is empty exactly when
every character of `s` is whitespace. -/
def trimIsEmpty (s : String) : Bool :=
  s.data.all Char.isWhitespace

/-- The `GET /tokens/:user_id` handler: 400 when the path parameter is empty or
blank after `trim()`; 500 with a fixed
message on a store error; 404 `Access token not found` when no row matched; 404
`Access token not found for this user` when a row matched but its
`access_token` field is falsy; otherwise 200 with the row. -/
def getTokens (user_id : String) (st : MaybeSingleResult) : Resp :=
  if user_id = "" || trimIsEmpty user_id then ⟨400, .err "user_id is required"⟩
  else
    match st with
    | .failure _ _ => ⟨500, .err "Database error occurred"⟩
    | .success none => ⟨404, .err "Access token not found"⟩
    | .success (some row) =>
        if !jsTruthy (row "access_token") then
          ⟨404, .err "Access token not found for this user"⟩
        else ⟨200, .row row⟩

/-- C9: when the token row for the user exists but its `access_token` is `null`
or the empty string, `GET /tokens/:user_id` answers 404 with
`Access token not found for this user`, never 200 with the partial record. -/
theorem getTokens_null_access_token_404 (user_id : String) (row : Rec)
    (hu : user_id ≠ "") (ht : trimIsEmpty user_id = false)
    (ha : row "access_token" = .null ∨ row "access_token" = .str "") :
    getTokens user_id (.success (some row)) =
      ⟨404, .err "Access token not found for this user"⟩ := by
  have hfalsy : jsTruthy (row "access_token") = false := by
    rcases ha with h | h <;> rw [h] <;> rfl
  simp [getTokens, hu, ht, hfalsy]

/-- A stored token row whose `access_token` column is `null`. -/
def c9Row : Rec := fun k => if k = "expires_at" then .str "2025-01-01" else .null

/-- C9 witness: the concrete user `u1` with a row whose `access_token` is
`null` gets the dedicated 404. -/
theorem getTokens_null_access_token_404_witness :
    getTokens "u1" (.success (some c9Row)) =
      ⟨404, .err "Access token not found for this user"⟩ :=
  getTokens_null_access_token_404 "u1" c9Row (by decide) (by decide)
    (Or.inl (by decide))

/-- Outcome of a `.single()` store call: `{data: row | null, error}`.  On a
success the row is present; the `Option` records the handler's own `!data`
test. -/
inductive SingleResult where
  | success : Option Rec → SingleResult
  | failure : String → String → SingleResult

/-- The zero-rows outcome of a `.single()` query: per the PostgREST contract
that this repository itself relies on (the `refresh-tokens`, `sessions` and
`auth` handlers all test `error.code === "PGRST116"`), matching zero rows
yields an error with code `PGRST116` carrying the client's message, not a
null-data success. -/
def singleZeroRows (msg : String) : SingleResult :=
  .failure "PGRST116" msg

/-- The `GET /activities/:id` handler: any store error (including the
`PGRST116` zero-rows error, which it does not special-case) is thrown and
caught as 500 with the error message; a null `data` would give 404; otherwise
200 with the row. -/
def getActivityById (st : SingleResult) : Resp :=
  match st with
  | .failure _ msg => ⟨500, .err msg⟩
  | .success none => ⟨404, .err "Activity not found"⟩
  | .success (some row) => ⟨200, .row row⟩

/-- C3: contrary to the claim, `GET /activities/:id` on a zero-rows lookup
answers 500 with the store's error message, not 404
`Activity not found`: the handler throws every store error without testing for
the `PGRST116` zero-rows code, so the dead `!data` branch never produces the
404, and the zero-rows outcome is conflated with store failures. -/
theorem getActivityById_zero_rows_is_500 (msg : String) :
    getActivityById (singleZeroRows msg) = ⟨500, .err msg⟩ ∧
    getActivityById (singleZeroRows msg) ≠ ⟨404, .err "Activity not found"⟩ := by
  refine ⟨rfl, fun h => ?_⟩
  have hs := congrArg Resp.status h
  simp [getActivityById, singleZeroRows] at hs

/-- The `req.params` object of a request matching the route
`/sessions/:sessionId`: Express stores the path segment under the declared
parameter name `sessionId` and nothing else. -/
def sessionParams (sid : String) : Rec := fun k =>
  if k = "sessionId" then .str sid else (.undef)

/-- The `GET /sessions/:sessionId` handler: it destructures `session_id` (not
`sessionId`) from `req.params`, guards on its truthiness, then queries the
store, mapping `PGRST116` to 404, other errors to 500, success to 200. -/
def getSession (params : Rec) (st : SingleResult) : Resp :=
  if !jsTruthy (params "session_id") then ⟨400, .err "session_id is required"⟩
  else
    match st with
    | .failure code msg =>
        if code = "PGRST116" then ⟨404, .err "Session not found"⟩
        else ⟨500, .err msg⟩
    | .success none => ⟨200, .nullJson⟩
    | .success (some row) => ⟨200, .row row⟩

/-- C5: contrary to the claim, `GET /sessions/:sessionId` answers 400
`session_id is required` for every session id and every store outcome: the
handler reads `req.params.session_id` while the route names the parameter
`sessionId`, so the destructured value is always `undefined` and the guard
fires before any store interaction — an existing session never yields 200. -/
theorem getSession_always_400 (sid : String) (st : SingleResult) :
    getSession (sessionParams sid) st = ⟨400, .err "session_id is required"⟩ := by
  have h : sessionParams sid "session_id" = .undef := by
    simp [sessionParams]
  simp [getSession, h, jsTruthy]

/-- The JavaScript `delete obj[k]` on an object viewed as a lookup: the key
becomes absent, every other key is unchanged. -/
def deleteKey (r : Rec) (k : String) : Rec := fun q =>
  if q = k then .undef else r q

/-- The object passed to `.update(...)` by `POST /athletes/:id`: the request
body with `id` deleted, spread under an `updated_at` stamp
(`{...athleteData, updated_at: now}`). -/
def athleteUpdatePayload (body : Rec) (now : String) : Rec := fun q =>
  if q = "updated_at" then .str now else deleteKey body "id" q

/-- The object passed to `.update(...)` by `POST /athletes/:id/stats`: the
request body spread unchanged under an `updated_at` stamp — this handler
deletes nothing from the body. -/
def athleteStatsUpdatePayload (body : Rec) (now : String) : Rec := fun q =>
  if q = "updated_at" then .str now else body q

/-- A patch body that carries the identity column. -/
def c4Patch : Rec := fun k => if k = "user_id" then .str "someone-else" else (.undef)

/-- C4 counterexample: the claim fails on `POST /athletes/:id/stats` — for the
concrete patch `{user_id: "someone-else"}` the object written to the store
still contains `user_id = "someone-else"`: the identity field is not stripped
before the write, so the patch can overwrite the identity column. -/
theorem athleteStatsUpdate_keeps_user_id :
    athleteStatsUpdatePayload c4Patch "2025-01-01T00:00:00.000Z" "user_id" =
      .str "someone-else" ∧
    athleteStatsUpdatePayload c4Patch "2025-01-01T00:00:00.000Z" "user_id" ≠
      .undef := by
  exact ⟨by decide, by decide⟩

/-- C4 amended: both partial-update handlers stamp `updated_at` server-side;
`POST /athletes/:id` strips `id` from the patch, but neither handler strips
`user_id` — the stats handler passes the whole patch through unchanged — so a
patch containing `user_id` reaches the write on both routes. -/
theorem athleteUpdate_strips_id_only (body : Rec) (now : String) :
    athleteUpdatePayload body now "id" = .undef ∧
    athleteUpdatePayload body now "updated_at" = .str now ∧
    athleteStatsUpdatePayload body now "updated_at" = .str now ∧
    athleteUpdatePayload body now "user_id" = body "user_id" ∧
    athleteStatsUpdatePayload body now "user_id" = body "user_id" := by
  refine ⟨?_, ?_, ?_, ?_, ?_⟩ <;>
    simp [athleteUpdatePayload, athleteStatsUpdatePayload, deleteKey]

/-- Outcome of an `insert(...).select()` store call. -/
inductive InsertResult where
  | success : List Rec → InsertResult
  | failure : String → String → InsertResult

/-- JavaScript truthiness of an object value: an object is truthy regardless
of its contents (only `undefined`, `null`, `false`, `0`, `NaN` and empty
strings are falsy, and an object is none of these). -/
def objTruthy (body : Rec) : Bool :=
  true

/-- The `POST /maps` handler: the `!mapData` guard tests the truthiness of the
parsed body object; the insert payload is the body spread under a
server-stamped `created_at`; success answers 201 with the first returned row
(`data[0]` is `undefined` when the row array is empty), a store error is
thrown and caught as 500 with its message. -/
def postMaps (body : Rec) (now : String) (st : InsertResult) : Resp :=
  if !objTruthy body then ⟨400, .err "Map data is required"⟩
  else
    match st with
    | .failure _ msg => ⟨500, .err msg⟩
    | .success rows =>
        match rows with
        | [] => ⟨201, .rowOpt none⟩
        | r :: _ => ⟨201, .rowOpt (some r)⟩

/-- The object passed to `.insert([...])` by `POST /maps`:
`{...mapData, created_at: now}`. -/
def mapsInsertPayload (body : Rec) (now : String) : Rec := fun q =>
  if q = "created_at" then .str now else body q

/-- C10: for every parsed-object body (including the empty object), `POST
/maps` never answers 400 `Map data is required` — the guard tests the
truthiness of an object, which always holds — and it always proceeds to the
store call, answering 201 with the first inserted row on success and 500 with
the store message on failure. -/
theorem postMaps_400_unreachable (body : Rec) (now : String) :
    (∀ st, postMaps body now st ≠ ⟨400, .err "Map data is required"⟩) ∧
    (∀ r rest, postMaps body now (.success (r :: rest)) =
      ⟨201, .rowOpt (some r)⟩) ∧
    (∀ code msg, postMaps body now (.failure code msg) = ⟨500, .err msg⟩) := by
  refine ⟨fun st => ?_, fun r rest => rfl, fun code msg => rfl⟩
  intro h
  have hs := congrArg Resp.status h
  cases st with
  | success rows => cases rows <;> simp [postMaps, objTruthy] at hs
  | failure code msg => simp [postMaps, objTruthy] at hs

/-- Outcome of one `insert` call of the batch importer: the Supabase client
answers `{error}` without throwing, or the awaited call throws. -/
inductive InsertOutcome where
  | ok : InsertOutcome
  | dbError : InsertOutcome
  | thrown : InsertOutcome

/-- The result of a batch-importer run: either the process terminated through
`process.exit(1)` in the outer catch, or the run completed with final success
and failure counts. -/
inductive ImportResult where
  | fatalExit : Nat → ImportResult
  | completed : Nat → Nat → ImportResult
deriving DecidableEq, Repr

/-- The `for (const record of jsonData)` loop of `importActivities`: each
record is normalized with `transformData` and inserted; the environment
`st i a` gives the outcome of the i-th insert call on payload `a`; a returned
error or a thrown exception increments the failure count, a clean insert the
success count, and the loop always continues to the next record. -/
def importLoop (records : List Rec) (st : Nat → ActivityRecord → InsertOutcome)
    (i s e : Nat) : Nat × Nat :=
  match records with
  | [] => (s, e)
  | r :: rest =>
      match st i (transformData r) with
      | .ok => importLoop rest st (i + 1) (s + 1) e
      | .dbError => importLoop rest st (i + 1) s (e + 1)
      | .thrown => importLoop rest st (i + 1) s (e + 1)

/-- `importActivities`: a file read or JSON parse failure is caught by the
outer catch and terminates the process with exit code 1; otherwise the loop
runs over every parsed record and the run completes with the final success and
failure counts. -/
def importActivities (parsed : Except String (List Rec))
    (st : Nat → ActivityRecord → InsertOutcome) : ImportResult :=
  match parsed with
  | .error _ => .fatalExit 1
  | .ok records =>
      let counts := importLoop records st 0 0 0
      .completed counts.1 counts.2

/-- Specification-side count of the records whose insert succeeds, starting at
call index `i`. -/
def okCount (records : List Rec) (st : Nat → ActivityRecord → InsertOutcome)
    (i : Nat) : Nat :=
  match records with
  | [] => 0
  | r :: rest =>
      (match st i (transformData r) with
        | .ok => 1
        | .dbError => 0
        | .thrown => 0) + okCount rest st (i + 1)

/-- Specification-side count of the records whose insert fails (returned error
or thrown exception), starting at call index `i`. -/
def errCount (records : List Rec) (st : Nat → ActivityRecord → InsertOutcome)
    (i : Nat) : Nat :=
  match records with
  | [] => 0
  | r :: rest =>
      (match st i (transformData r) with
        | .ok => 0
        | .dbError => 1
        | .thrown => 1) + errCount rest st (i + 1)

theorem importLoop_eq (records : List Rec)
    (st : Nat → ActivityRecord → InsertOutcome) :
    ∀ i s e, importLoop records st i s e =
      (s + okCount records st i, e + errCount records st i) := by
  induction records with
  | nil => intro i s e; simp [importLoop, okCount, errCount]
  | cons r rest ih =>
      intro i s e
      cases h : st i (transformData r) <;>
        simp [importLoop, okCount, errCount, h, ih] <;> omega

theorem okCount_add_errCount (records : List Rec)
    (st : Nat → ActivityRecord → InsertOutcome) :
    ∀ i, okCount records st i + errCount records st i = records.length := by
  induction records with
  | nil => intro i; simp [okCount, errCount]
  | cons r rest ih =>
      intro i
      have hih := ih (i + 1)
      cases h : st i (transformData r) <;>
        simp [okCount, errCount, h, List.length_cons] <;> omega

/-- C7: a file read or JSON parse failure makes the batch importer terminate
with the non-zero exit code 1; otherwise every record is processed in turn —
each per-record store failure (returned error or thrown exception) is counted
and the loop continues — and the run completes reporting the final success
count and failure count, which together cover all parsed records. -/
theorem importActivities_counts (msg : String) (records : List Rec)
    (st : Nat → ActivityRecord → InsertOutcome) :
    importActivities (.error msg) st = .fatalExit 1 ∧
    importActivities (.ok records) st =
      .completed (okCount records st 0) (errCount records st 0) ∧
    okCount records st 0 + errCount records st 0 = records.length := by
  refine ⟨rfl, ?_, okCount_add_errCount records st 0⟩
  simp [importActivities, importLoop_eq]
